import Mathlib

set_option linter.unusedVariables false

/-!
Verification development for the MySQL Workbench code-completion engine
(`library/parsers/code-completion/mysql-code-completion.cpp`).

The C++ source is shallowly embedded below.  Pure fragments of the file
(the qualifier analyzers, the completion-set comparator, the snapshot and
candidate post-processing logic, and the top-level result assembler) are
translated directly.  External collaborators that the file merely calls
(the ANTLR token scanner of `parsers-common`, `MySQLLexer::isIdentifier`,
`base::unquote`, `base::same_string`, `base::string_compare`,
`MySQLObjectNamesCache`, and the `CodeCompletionCore` candidate engine)
are not part of the sources; where needed they are modelled from the
specification and marked as such in their doc comments.
-/

/-- Token types of the MySQL lexer that the completion code inspects.
Only the types mentioned by `mysql-code-completion.cpp` are distinguished;
all other vocabulary entries are represented by `OTHER n`.  `INVALID_T`
is the out-of-stream sentinel returned by a failed look-back. -/
inductive TokType where
  | EOF_T
  | INVALID_T
  | DOT_SYMBOL
  | IDENTIFIER
  | BACK_TICK_QUOTED_ID
  | OPEN_PAR_SYMBOL
  | NOT_SYMBOL
  | NOT2_SYMBOL
  | NOW_SYMBOL
  | CHAR_SYMBOL
  | DAY_SYMBOL
  | DECIMAL_SYMBOL
  | DISTINCT_SYMBOL
  | COLUMNS_SYMBOL
  | FLOAT_SYMBOL
  | DOUBLE_SYMBOL
  | INT_SYMBOL
  | RELAY_THREAD_SYMBOL
  | SUBSTRING_SYMBOL
  | MID_SYMBOL
  | MEDIUMINT_SYMBOL
  | NDBCLUSTER_SYMBOL
  | REGEXP_SYMBOL
  | DATABASE_SYMBOL
  | DATABASES_SYMBOL
  | USER_SYMBOL
  | STD_SYMBOL
  | VARCHAR_SYMBOL
  | VARIANCE_SYMBOL
  | TINYINT_SYMBOL
  | SMALLINT_SYMBOL
  | BIGINT_SYMBOL
  | FRAC_SECOND_SYMBOL
  | SECOND_SYMBOL
  | MINUTE_SYMBOL
  | HOUR_SYMBOL
  | WEEK_SYMBOL
  | MONTH_SYMBOL
  | QUARTER_SYMBOL
  | YEAR_SYMBOL
  | OTHER (n : Nat)
deriving DecidableEq

/-- A token of the pre-lexed input stream: type, ANTLR channel
(0 is the default channel, anything else is hidden), and source text. -/
structure Token where
  ttype : TokType
  channel : Nat
  text : String
deriving DecidableEq

/-- The sentinel EOF token the scanner clamps to at the stream end. -/
def eofToken : Token := { ttype := TokType.EOF_T, channel := 0, text := "" }

/-- Modelled from the spec (§4.1): the Token Scanner of `parsers-common`
(not part of the sources).  A cursor over the pre-tokenized stream with a
saved-position stack.  The stream is a plain list whose final element is
the EOF sentinel; movement past either end is clamped. -/
structure Scanner where
  tokens : List Token
  index : Nat
  stack : List Nat
deriving DecidableEq

/-- Current token (EOF sentinel when the index is out of range). -/
def Scanner.curToken (s : Scanner) : Token := s.tokens.getD s.index eofToken

def Scanner.tokenType (s : Scanner) : TokType := s.curToken.ttype

def Scanner.tokenChannel (s : Scanner) : Nat := s.curToken.channel

def Scanner.tokenText (s : Scanner) : String := s.curToken.text

def Scanner.tokenIndex (s : Scanner) : Nat := s.index

/-- One step forward, clamped at the last (EOF) token. -/
def Scanner.nextStep (s : Scanner) : Scanner :=
  if s.index + 1 < s.tokens.length then { s with index := s.index + 1 } else s

/-- Modelled from the spec (§4.1): keep stepping forward while the current
token is hidden; fueled by the stream length to make termination obvious. -/
def Scanner.skipHiddenForward : Nat → Scanner → Scanner
  | 0, s => s
  | n + 1, s =>
    if s.tokenChannel ≠ 0 ∧ s.index + 1 < s.tokens.length then
      Scanner.skipHiddenForward n s.nextStep
    else s

/-- Modelled from the spec (§4.1): `next(skip_hidden)` — move one token
forward; with `skipHidden` keep moving until a default-channel token. -/
def Scanner.next (s : Scanner) (skipHidden : Bool) : Scanner :=
  let s1 := s.nextStep
  if skipHidden then Scanner.skipHiddenForward s1.tokens.length s1 else s1

/-- One step backward, clamped at index 0. -/
def Scanner.prevStep (s : Scanner) : Scanner :=
  if 0 < s.index then { s with index := s.index - 1 } else s

/-- Modelled from the spec (§4.1): keep stepping backward while the current
token is hidden. -/
def Scanner.skipHiddenBackward : Nat → Scanner → Scanner
  | 0, s => s
  | n + 1, s =>
    if s.tokenChannel ≠ 0 ∧ 0 < s.index then
      Scanner.skipHiddenBackward n s.prevStep
    else s

/-- Modelled from the spec (§4.1): `previous(skip_hidden)`. -/
def Scanner.previous (s : Scanner) (skipHidden : Bool) : Scanner :=
  let s1 := s.prevStep
  if skipHidden then Scanner.skipHiddenBackward s1.tokens.length s1 else s1

/-- Helper for `lookBack`: the type of the nearest default-channel token
strictly before index `i`, or `INVALID_T` when none exists. -/
def lookBackAux (tokens : List Token) : Nat → TokType
  | 0 => TokType.INVALID_T
  | i + 1 =>
    match tokens.get? i with
    | some t => if t.channel = 0 then t.ttype else lookBackAux tokens i
    | none => lookBackAux tokens i

/-- Modelled from the spec (§4.1): `look_back()` — the type of the previous
non-hidden token, without moving the cursor. -/
def Scanner.lookBack (s : Scanner) : TokType := lookBackAux s.tokens s.index

/-- Modelled from the spec (§4.1): `is(token_type)`. -/
def Scanner.is (s : Scanner) (t : TokType) : Bool := s.tokenType == t

/-- Modelled from the spec (§4.1): `push()` — save the current index. -/
def Scanner.push (s : Scanner) : Scanner := { s with stack := s.index :: s.stack }

/-- Modelled from the spec (§4.1): `pop()` — restore the saved index. -/
def Scanner.pop (s : Scanner) : Scanner :=
  match s.stack with
  | [] => s
  | i :: rest => { s with index := i, stack := rest }

/-- Modelled from the spec: `MySQLLexer` as the completion code uses it —
only its `isIdentifier` classification of token types is consulted. -/
structure LexerModel where
  isIdentifier : TokType → Bool

/-- Modelled from the spec: identifier-like token types are the plain
identifier and the back-tick quoted identifier. -/
def mysqlLexer : LexerModel :=
  { isIdentifier := fun t => t == TokType.IDENTIFIER || t == TokType.BACK_TICK_QUOTED_ID }

/-- Quote characters recognised by `base::unquote` (back tick, single
quote, double quote), written by code point to stay plain ASCII. -/
def isQuoteChar (c : Char) : Bool :=
  c == Char.ofNat 96 || c == Char.ofNat 39 || c == Char.ofNat 34

/-- Modelled from the spec (§6): `base::unquote` strips one pair of
matching surrounding quote characters, if present. -/
def unquote (s : String) : String :=
  match s.data with
  | [] => s
  | c :: rest =>
    if 1 ≤ rest.length && isQuoteChar c && (rest.getLast? == some c) then
      String.mk rest.dropLast
    else s

/-- Character-wise lowercasing (the effect of `base::tolower` and of the
case-folding used by `base::string_compare`), defined structurally over
the character list so that it evaluates by kernel reduction. -/
def strLower (s : String) : String := String.mk (s.data.map Char.toLower)

/-- Strict lexicographic order on character lists (the order that
`std::less<std::string>` and a negative `base::string_compare` result
denote), defined structurally so that it evaluates by kernel reduction. -/
def charListLt : List Char → List Char → Bool
  | [], [] => false
  | [], _ :: _ => true
  | _ :: _, [] => false
  | a :: s, b :: t => if a < b then true else if b < a then false else charListLt s t

/-- Strict lexicographic order on strings. -/
def strLt (a b : String) : Bool := charListLt a.data b.data

/-- Modelled from the spec (§9): `base::same_string` with its default
arguments — case-insensitive string equality. -/
def sameString (a b : String) : Bool := strLower a == strLower b

/-- `ObjectFlags` bit values (enum at lines 302–311 of the source). -/
def ShowSchemas : Nat := 1

def ShowTables : Nat := 2

def ShowColumns : Nat := 4

def ShowFirst : Nat := 8

def ShowSecond : Nat := 16

/-- The backward-positioning prelude of `determineQualifier`
(source lines 331–347): skip a hidden caret token, step back over an
incomplete trailing identifier, then back up over at most one
identifier/dot pair so the cursor lands on the leading identifier or dot. -/
def dqReposition (s : Scanner) (lx : LexerModel) (position : Nat) : Scanner :=
  let s := if s.tokenChannel ≠ 0 then s.next true else s
  let s :=
    if !(s.is TokType.DOT_SYMBOL) && !(lx.isIdentifier s.tokenType) then s.previous true else s
  if 0 < position then
    let s :=
      if lx.isIdentifier s.tokenType && (s.lookBack == TokType.DOT_SYMBOL) then s.previous true
      else s
    let s :=
      if s.is TokType.DOT_SYMBOL && lx.isIdentifier s.lookBack then s.previous true else s
    s
  else s

/-- The tail of `determineQualifier` (source lines 350–362), run once the
scanner sits on the leading identifier or dot: read the identifier text if
present, advance, and decide between the two emissions. -/
def determineQualifierFrom (s : Scanner) (lx : LexerModel) (position : Nat) :
    Nat × String × Scanner :=
  let p := if lx.isIdentifier s.tokenType then (unquote s.tokenText, s.next true) else ("", s)
  let temp := p.1
  let s := p.2
  if s.is TokType.DOT_SYMBOL = false ∨ position ≤ s.tokenIndex then
    (ShowFirst ||| ShowSecond, "", s)
  else (ShowSecond, temp, s)

/-- `determineQualifier` (source lines 321–363).  Returns the flags, the
qualifier text, and the final scanner state.  The `offsetInLine` parameter
is present in the C++ signature and, as there, is never read. -/
def determineQualifier (s : Scanner) (lx : LexerModel) (offsetInLine : Nat) :
    Nat × String × Scanner :=
  let position := s.tokenIndex
  let s1 := dqReposition s lx position
  determineQualifierFrom s1 lx position

/-- The backward-positioning prelude of `determineSchemaTableQualifier`
(source lines 378–404): like `dqReposition` but backing up over at most
two dots. -/
def dstqReposition (s : Scanner) (lx : LexerModel) (position : Nat) : Scanner :=
  let s := if s.tokenChannel ≠ 0 then s.next true else s
  let s :=
    if !(s.is TokType.DOT_SYMBOL) && !(lx.isIdentifier s.tokenType) then s.previous true else s
  if 0 < position then
    let s :=
      if lx.isIdentifier s.tokenType && (s.lookBack == TokType.DOT_SYMBOL) then s.previous true
      else s
    if s.is TokType.DOT_SYMBOL && lx.isIdentifier s.lookBack then
      let s := s.previous true
      if s.lookBack == TokType.DOT_SYMBOL then
        let s := s.previous true
        if lx.isIdentifier s.lookBack then s.previous true else s
      else s
    else s
  else s

/-- `determineSchemaTableQualifier` (source lines 375–435).  Returns the
flags, the schema text, the table text, and the final scanner state. -/
def determineSchemaTableQualifier (s : Scanner) (lx : LexerModel) :
    Nat × String × String × Scanner :=
  let position := s.tokenIndex
  let s := dstqReposition s lx position
  let p := if lx.isIdentifier s.tokenType then (unquote s.tokenText, s.next true) else ("", s)
  let temp := p.1
  let s := p.2
  if s.is TokType.DOT_SYMBOL = false ∨ position ≤ s.tokenIndex then
    (ShowSchemas ||| ShowTables ||| ShowColumns, "", "", s)
  else
    let s := s.next true
    let table := temp
    let schema := temp
    if lx.isIdentifier s.tokenType then
      let temp2 := unquote s.tokenText
      let s2 := s.next true
      if s2.is TokType.DOT_SYMBOL = false ∨ position ≤ s2.tokenIndex then
        (ShowTables ||| ShowColumns, schema, table, s2)
      else (ShowColumns, schema, temp2, s2)
    else (ShowTables ||| ShowColumns, schema, table, s)

/-- A table reference collected from a FROM clause
(struct `TableReference`, source lines 55–60).  The field `alias` is a
Lean keyword, hence the trailing underscore. -/
structure TableReference where
  schema : String
  table : String
  alias_ : String
deriving DecidableEq

instance : Inhabited TableReference := ⟨⟨"", "", ""⟩⟩

/-- Grammar rules registered as preferred rules (source lines 148–183). -/
inductive RuleId where
  | RuleSchemaRef
  | RuleTableRef
  | RuleTableRefWithWildcard
  | RuleFilterTableRef
  | RuleTableRefNoDb
  | RuleColumnRef
  | RuleColumnInternalRef
  | RuleTableWild
  | RuleFunctionRef
  | RuleFunctionCall
  | RuleRuntimeFunctionCall
  | RuleTriggerRef
  | RuleViewRef
  | RuleProcedureRef
  | RuleLogfileGroupRef
  | RuleTablespaceRef
  | RuleEngineRef
  | RuleCollationName
  | RuleCharsetName
  | RuleEventRef
  | RuleServerRef
  | RuleUserVariable
  | RuleSystemVariable
  | RuleLabelRef
  | RuleParameterName
  | RuleProcedureName
  | RuleIdentifier
  | RuleLabelIdentifier
deriving DecidableEq

/-- The candidate engine's output (`CandidatesCollection`): the token map
(token id → follow tokens) and the rule map (rule id → context path).
Both are `std::map`s with unique keys; they are embedded as association
lists. -/
structure CandidatesCollection where
  tokens : List (TokType × List TokType)
  rules : List (RuleId × List Nat)
deriving DecidableEq

/-- `struct AutoCompletionContext` (source lines 63–298): engine output,
the per-scope reference stack, and the flat references list. -/
structure AutoCompletionContext where
  completionCandidates : CandidatesCollection
  referencesStack : List (List TableReference)
  references : List TableReference
deriving DecidableEq

/-- `std::map::count k > 0`-style lookup on the token map. -/
def tokLookup (m : List (TokType × List TokType)) (k : TokType) : Option (List TokType) :=
  (m.find? fun p => p.1 == k).map Prod.snd

/-- `tokens[k] = v` on the token map: replace the first entry with key `k`,
or append a fresh entry when the key is absent. -/
def tokSet : List (TokType × List TokType) → TokType → List TokType →
    List (TokType × List TokType)
  | [], k, v => [(k, v)]
  | p :: t, k, v => if p.1 == k then (k, v) :: t else p :: tokSet t k v

/-- `tokens.erase k` on the token map. -/
def tokErase (m : List (TokType × List TokType)) (k : TokType) :
    List (TokType × List TokType) :=
  m.filter fun p => p.1 != k

/-- The NOT2 post-processing step of `collectCandidates` (source lines
225–231): when the engine reported `NOT2_SYMBOL`, carry its follow list
under `NOT_SYMBOL` and erase the `NOT2_SYMBOL` entry. -/
def postProcessNot2 (m : List (TokType × List TokType)) : List (TokType × List TokType) :=
  match tokLookup m TokType.NOT2_SYMBOL with
  | some f => tokErase (tokSet m TokType.NOT_SYMBOL f) TokType.NOT2_SYMBOL
  | none => m

/-- `AutoCompletionContext::collectRemainingTableReferences` (source lines
254–277).  The C++ body declares a local listener class and otherwise
consists only of comments: it never reads the token stream and never
touches the context, so its translation is the identity. -/
def collectRemainingTableReferences (ctx : AutoCompletionContext) : AutoCompletionContext :=
  ctx

/-- `AutoCompletionContext::takeReferencesSnapshot` (source lines
284–294): append every reference of every stack level to the flat
`references` vector via `push_back`; the stack itself is not modified and
the flat list is not cleared. -/
def takeReferencesSnapshot (ctx : AutoCompletionContext) : AutoCompletionContext :=
  { ctx with references := ctx.references ++ ctx.referencesStack.flatten }

/-- `AutoCompletionContext::collectCandidates` (source lines 90–243),
with the external `CodeCompletionCore` engine modelled as the
`engineResult` input: push the root reference level, store the engine's
candidates, rename NOT2 to NOT, and — for each `RuleColumnRef` rule
candidate — run the (stubbed) remaining-reference scan and snapshot the
reference stack. -/
def collectCandidates (ctx : AutoCompletionContext) (engineResult : CandidatesCollection) :
    AutoCompletionContext :=
  let ctx := { ctx with referencesStack := ctx.referencesStack ++ [[]] }
  let cands :=
    { engineResult with tokens := postProcessNot2 engineResult.tokens }
  let ctx := { ctx with completionCandidates := cands }
  cands.rules.foldl
    (fun c ruleEntry =>
      if ruleEntry.1 == RuleId.RuleColumnRef then
        takeReferencesSnapshot (collectRemainingTableReferences c)
      else c)
    ctx

/-- `CompareAcEntries` (source lines 439–447):
`base::string_compare(lhs.second, rhs.second, false) < 0`, i.e. a strict
weak order comparing only the entry texts, case-insensitively.  The entry
kinds are not consulted. -/
def acLt (l r : Nat × String) : Bool := strLt (strLower l.2) (strLower r.2)

/-- `std::set<std::pair<int, std::string>, CompareAcEntries>::insert`:
ordered insertion that drops the new element when an equivalent one
(equal under the comparator in both directions) is already present. -/
def csInsert : List (Nat × String) → Nat × String → List (Nat × String)
  | [], e => [e]
  | a :: rest, e =>
    if acLt e a then e :: a :: rest
    else if acLt a e then a :: csInsert rest e
    else a :: rest

/-- `std::set<std::string>::insert` with the default (case-sensitive)
comparator, used for the local `schemas` / `tables` sets. -/
def strInsert : List String → String → List String
  | [], e => [e]
  | a :: rest, e =>
    if strLt e a then e :: a :: rest
    else if strLt a e then a :: strInsert rest e
    else a :: rest

/-- Modelled from the spec (§6): the `AC_*_IMAGE` completion-kind
identifiers of `mysql-code-completion.h` (not part of the sources).  The
spec fixes only that they are distinct stable integers. -/
def AC_KEYWORD_IMAGE : Nat := 1

def AC_SCHEMA_IMAGE : Nat := 2

def AC_TABLE_IMAGE : Nat := 3

def AC_ROUTINE_IMAGE : Nat := 4

def AC_FUNCTION_IMAGE : Nat := 5

def AC_VIEW_IMAGE : Nat := 6

def AC_COLUMN_IMAGE : Nat := 7

def AC_ENGINE_IMAGE : Nat := 8

def AC_TRIGGER_IMAGE : Nat := 9

def AC_LOGFILE_GROUP_IMAGE : Nat := 10

def AC_USER_VAR_IMAGE : Nat := 11

def AC_SYSTEM_VAR_IMAGE : Nat := 12

def AC_TABLESPACE_IMAGE : Nat := 13

def AC_EVENT_IMAGE : Nat := 14

def AC_CHARSET_IMAGE : Nat := 15

def AC_COLLATION_IMAGE : Nat := 16

/-- Modelled from the spec (§4.6): `MySQLObjectNamesCache`, the external
name cache, as the record of query functions the completion code calls. -/
structure NamesCache where
  getMatchingSchemaNames : String → List String
  getMatchingTableNames : String → String → List String
  getMatchingViewNames : String → String → List String
  getMatchingColumnNames : String → String → String → List String
  getMatchingProcedureNames : String → String → List String
  getMatchingFunctionNames : String → String → List String
  getMatchingUdfNames : String → List String
  getMatchingTriggerNames : String → String → String → List String
  getMatchingEvents : String → String → List String
  getMatchingEngines : String → List String
  getMatchingLogfileGroups : String → List String
  getMatchingTablespaces : String → List String
  getMatchingVariables : String → List String
  getMatchingCharsets : String → List String
  getMatchingCollations : String → List String

/-- `insertSchemas` (source lines 451–456). -/
def insertSchemas (cache : NamesCache) (set : List (Nat × String)) (typedPart : String) :
    List (Nat × String) :=
  (cache.getMatchingSchemaNames typedPart).foldl
    (fun st schema => csInsert st (AC_SCHEMA_IMAGE, schema)) set

/-- `insertTables` (source lines 460–469). -/
def insertTables (cache : NamesCache) (set : List (Nat × String)) (schemas : List String)
    (typedPart : String) : List (Nat × String) :=
  schemas.foldl
    (fun st schema =>
      (cache.getMatchingTableNames schema typedPart).foldl
        (fun st2 table => csInsert st2 (AC_TABLE_IMAGE, table)) st)
    set

/-- `insertViews` (source lines 473–482). -/
def insertViews (cache : NamesCache) (set : List (Nat × String)) (schemas : List String)
    (typedPart : String) : List (Nat × String) :=
  schemas.foldl
    (fun st schema =>
      (cache.getMatchingViewNames schema typedPart).foldl
        (fun st2 view => csInsert st2 (AC_VIEW_IMAGE, view)) st)
    set

/-- `insertColumns` (source lines 486–498). -/
def insertColumns (cache : NamesCache) (set : List (Nat × String)) (schemas : List String)
    (tables : List String) (typedPart : String) : List (Nat × String) :=
  schemas.foldl
    (fun st schema =>
      tables.foldl
        (fun st2 table =>
          (cache.getMatchingColumnNames schema table typedPart).foldl
            (fun st3 column => csInsert st3 (AC_COLUMN_IMAGE, column)) st2)
        st)
    set

/-- The query-type hint obtained from `MySQLLexer::determineQueryType`
(external); only `QtCreateTrigger` is ever compared against. -/
inductive MySQLQueryType where
  | QtUnknown
  | QtCreateTrigger
  | QtOther
deriving DecidableEq

/-- The static keyword-synonyms table (source lines 539–576), including
its duplicate keys (`std::map` initialization keeps the first entry for a
repeated key).  Note: `getCodeCompletionList` never reads this table. -/
def synonyms : List (TokType × List String) := [
  (TokType.CHAR_SYMBOL, ["CHARACTER"]),
  (TokType.NOW_SYMBOL, ["CURRENT_TIMESTAMP", "LOCALTIME", "LOCALTIMESTAMP"]),
  (TokType.DAY_SYMBOL, ["DAYOFMONTH"]),
  (TokType.DECIMAL_SYMBOL, ["DEC"]),
  (TokType.DISTINCT_SYMBOL, ["DISTINCTROW"]),
  (TokType.CHAR_SYMBOL, ["CHARACTER"]),
  (TokType.COLUMNS_SYMBOL, ["FIELDS"]),
  (TokType.FLOAT_SYMBOL, ["FLOAT4"]),
  (TokType.DOUBLE_SYMBOL, ["FLOAT8"]),
  (TokType.INT_SYMBOL, ["INTEGER", "INT4"]),
  (TokType.RELAY_THREAD_SYMBOL, ["IO_THREAD"]),
  (TokType.SUBSTRING_SYMBOL, ["MID"]),
  (TokType.MID_SYMBOL, ["MEDIUMINT"]),
  (TokType.MEDIUMINT_SYMBOL, ["MIDDLEINT"]),
  (TokType.NDBCLUSTER_SYMBOL, ["NDB"]),
  (TokType.REGEXP_SYMBOL, ["RLIKE"]),
  (TokType.DATABASE_SYMBOL, ["SCHEMA"]),
  (TokType.DATABASES_SYMBOL, ["SCHEMAS"]),
  (TokType.USER_SYMBOL, ["SESSION_USER"]),
  (TokType.STD_SYMBOL, ["STDDEV", "STDDEV"]),
  (TokType.SUBSTRING_SYMBOL, ["SUBSTR"]),
  (TokType.VARCHAR_SYMBOL, ["VARCHARACTER"]),
  (TokType.VARIANCE_SYMBOL, ["VAR_POP"]),
  (TokType.TINYINT_SYMBOL, ["INT1"]),
  (TokType.SMALLINT_SYMBOL, ["INT2"]),
  (TokType.MEDIUMINT_SYMBOL, ["INT3"]),
  (TokType.BIGINT_SYMBOL, ["INT8"]),
  (TokType.FRAC_SECOND_SYMBOL, ["SQL_TSI_FRAC_SECOND"]),
  (TokType.SECOND_SYMBOL, ["SQL_TSI_SECOND"]),
  (TokType.MINUTE_SYMBOL, ["SQL_TSI_MINUTE"]),
  (TokType.HOUR_SYMBOL, ["SQL_TSI_HOUR"]),
  (TokType.DAY_SYMBOL, ["SQL_TSI_DAY"]),
  (TokType.WEEK_SYMBOL, ["SQL_TSI_WEEK"]),
  (TokType.MONTH_SYMBOL, ["SQL_TSI_MONTH"]),
  (TokType.QUARTER_SYMBOL, ["SQL_TSI_QUARTER"]),
  (TokType.YEAR_SYMBOL, ["SQL_TSI_YEAR"])]

/-- Substring test on character lists (used for `rfind("_SYMBOL")`). -/
def containsSub (pat : List Char) : List Char → Bool
  | [] => pat.isEmpty
  | c :: t => pat.isPrefixOf (c :: t) || containsSub pat t

/-- Display-name post-processing of the token loop (source lines 596–600
and 609–613): names containing `_SYMBOL` lose their last seven
characters (`std::string::resize(size - 7)` after a successful `rfind`);
all other names are unquoted. -/
def stripName (entry : String) : String :=
  if containsSub "_SYMBOL".data entry.data then
    String.mk (entry.data.take (entry.data.length - 7))
  else unquote entry

/-- The per-kind completion sets of `getCodeCompletionList`
(source lines 512–537). -/
structure Sets where
  schemaEntries : List (Nat × String) := []
  tableEntries : List (Nat × String) := []
  columnEntries : List (Nat × String) := []
  viewEntries : List (Nat × String) := []
  functionEntries : List (Nat × String) := []
  udfEntries : List (Nat × String) := []
  runtimeFunctionEntries : List (Nat × String) := []
  procedureEntries : List (Nat × String) := []
  triggerEntries : List (Nat × String) := []
  engineEntries : List (Nat × String) := []
  logfileGroupEntries : List (Nat × String) := []
  tablespaceEntries : List (Nat × String) := []
  systemVarEntries : List (Nat × String) := []
  keywordEntries : List (Nat × String) := []
  collationEntries : List (Nat × String) := []
  charsetEntries : List (Nat × String) := []
  eventEntries : List (Nat × String) := []
  userVarEntries : List (Nat × String) := []
  userEntries : List (Nat × String) := []
  indexEntries : List (Nat × String) := []
  pluginEntries : List (Nat × String) := []
  fkEntries : List (Nat × String) := []
deriving DecidableEq

/-- The empty initial state of all completion sets. -/
def emptySets : Sets := {}

/-- One iteration of the token-candidate loop (source lines 595–630):
resolve the display name, classify as runtime function (follow list
starting with an opening parenthesis) or keyword (other follow tokens
appended, lowercased unless `uppercaseKeywords`). -/
def processTokenCandidate (vocabulary : TokType → String) (uppercaseKeywords : Bool)
    (sets : Sets) (cand : TokType × List TokType) : Sets :=
  let entry := stripName (vocabulary cand.1)
  if cand.2 ≠ [] ∧ cand.2.head? = some TokType.OPEN_PAR_SYMBOL then
    { sets with
      runtimeFunctionEntries :=
        csInsert sets.runtimeFunctionEntries (AC_FUNCTION_IMAGE, strLower entry ++ "()") }
  else
    let entry := cand.2.foldl (fun e t => e ++ " " ++ stripName (vocabulary t)) entry
    let entry := if uppercaseKeywords then entry else strLower entry
    { sets with keywordEntries := csInsert sets.keywordEntries (AC_KEYWORD_IMAGE, entry) }

/-- The `tables` set computed in the ShowColumns part of the
column-reference branch (source lines 813–828): the typed qualifier plus
the table of the **first** reference whose alias matches it (the loop
breaks after the first match); with no qualifier, the tables of all
references, but only for a genuine `RuleColumnRef`. -/
def columnTables (table : String) (refs : List TableReference) (isColumnRef : Bool) :
    List String :=
  if table ≠ "" then
    let tables := strInsert [] table
    match refs.find? (fun r => sameString table r.alias_) with
    | some r => strInsert tables r.table
    | none => tables
  else if refs ≠ [] ∧ isColumnRef then
    refs.foldl (fun acc r => strInsert acc r.table) []
  else []

/-- Modelled from the spec: `base::split_by_set(s, " \t\n")` — split the
runtime-function-names string on whitespace, dropping empty pieces. -/
def splitFunctionNames (s : String) : List String :=
  (s.split fun c => c = ' ' ∨ c = '\t' ∨ c = '\n').filter (fun p => p ≠ "")

/-- The ShowColumns part of the column-reference branch (source lines
805–841): possibly widen the schema set in the ambiguous single-dot case,
build the `tables` set, insert columns only when it is non-empty, and
handle the `old`/`new` trigger-body special case. -/
def showColumnsUpdate (cache : NamesCache) (defaultSchema : String)
    (queryType : MySQLQueryType) (isColumnRef : Bool) (schema table : String)
    (refs : List TableReference) (schemas : List String) (sets : Sets) : Sets :=
  let schemas := if schema == table then strInsert schemas defaultSchema else schemas
  let tables := columnTables table refs isColumnRef
  let sets :=
    if tables ≠ [] then
      { sets with columnEntries := insertColumns cache sets.columnEntries schemas tables "" }
    else sets
  if queryType == MySQLQueryType.QtCreateTrigger ∧ refs ≠ [] ∧
      (sameString table "old" || sameString table "new") then
    let tables2 := strInsert [] (refs.headD default).table
    { sets with columnEntries := insertColumns cache sets.columnEntries schemas tables2 "" }
  else sets

/-- One iteration of the rule-candidate loop (source lines 632–967).
The scanner is first restored to the caret via `pop` / `push`; the branch
for the rule then updates the per-kind sets.  Rules without a `case`
label in the source (`ServerRef`, the generic identifier rules, …) fall
through unchanged. -/
def processRuleCandidate (cache : NamesCache) (defaultSchema : String)
    (functionNames : String) (queryType : MySQLQueryType) (caretOffset : Nat)
    (lx : LexerModel) (context : AutoCompletionContext) (st : Sets × Scanner)
    (cand : RuleId × List Nat) : Sets × Scanner :=
  let sets := st.1
  let scanner := (st.2.pop).push
  match cand.1 with
  | RuleId.RuleRuntimeFunctionCall =>
    let sets :=
      { sets with
        runtimeFunctionEntries :=
          (splitFunctionNames functionNames).foldl
            (fun s f => csInsert s (AC_FUNCTION_IMAGE, f ++ "()"))
            sets.runtimeFunctionEntries }
    (sets, scanner)
  | RuleId.RuleFunctionRef | RuleId.RuleFunctionCall =>
    let r := determineQualifier scanner lx caretOffset
    let flags := r.1
    let qualifier := r.2.1
    let scanner := r.2.2
    let sets :=
      if qualifier = "" then
        { sets with
          runtimeFunctionEntries :=
            (cache.getMatchingUdfNames "").foldl
              (fun s f => csInsert s (AC_FUNCTION_IMAGE, f ++ "()"))
              sets.runtimeFunctionEntries }
      else sets
    let sets :=
      if flags &&& ShowFirst ≠ 0 then
        { sets with schemaEntries := insertSchemas cache sets.schemaEntries "" }
      else sets
    let sets :=
      if flags &&& ShowSecond ≠ 0 then
        let qualifier := if qualifier = "" then defaultSchema else qualifier
        { sets with
          functionEntries :=
            (cache.getMatchingFunctionNames qualifier "").foldl
              (fun s f => csInsert s (AC_ROUTINE_IMAGE, f)) sets.functionEntries }
      else sets
    (sets, scanner)
  | RuleId.RuleEngineRef =>
    let sets :=
      { sets with
        engineEntries :=
          (cache.getMatchingEngines "").foldl
            (fun s e => csInsert s (AC_ENGINE_IMAGE, e)) sets.engineEntries }
    (sets, scanner)
  | RuleId.RuleSchemaRef =>
    ({ sets with schemaEntries := insertSchemas cache sets.schemaEntries "" }, scanner)
  | RuleId.RuleProcedureRef =>
    let r := determineQualifier scanner lx caretOffset
    let flags := r.1
    let qualifier := r.2.1
    let scanner := r.2.2
    let sets :=
      if flags &&& ShowFirst ≠ 0 then
        { sets with schemaEntries := insertSchemas cache sets.schemaEntries "" }
      else sets
    let sets :=
      if flags &&& ShowSecond ≠ 0 then
        let qualifier := if qualifier = "" then defaultSchema else qualifier
        { sets with
          procedureEntries :=
            (cache.getMatchingProcedureNames qualifier "").foldl
              (fun s p => csInsert s (AC_ROUTINE_IMAGE, p)) sets.procedureEntries }
      else sets
    (sets, scanner)
  | RuleId.RuleTableRefWithWildcard =>
    let r := determineSchemaTableQualifier scanner lx
    let flags := r.1
    let schema := r.2.1
    let scanner := r.2.2.2
    let sets :=
      if flags &&& ShowSchemas ≠ 0 then
        { sets with schemaEntries := insertSchemas cache sets.schemaEntries "" }
      else sets
    let schemas := strInsert [] (if schema = "" then defaultSchema else schema)
    let sets :=
      if flags &&& ShowTables ≠ 0 then
        let sets := { sets with tableEntries := insertTables cache sets.tableEntries schemas "" }
        { sets with viewEntries := insertViews cache sets.viewEntries schemas "" }
      else sets
    (sets, scanner)
  | RuleId.RuleTableRef | RuleId.RuleFilterTableRef | RuleId.RuleTableRefNoDb =>
    let r := determineQualifier scanner lx caretOffset
    let flags := r.1
    let qualifier := r.2.1
    let scanner := r.2.2
    let sets :=
      if flags &&& ShowFirst ≠ 0 then
        { sets with schemaEntries := insertSchemas cache sets.schemaEntries "" }
      else sets
    let sets :=
      if flags &&& ShowSecond ≠ 0 then
        let schemas := strInsert [] (if qualifier = "" then defaultSchema else qualifier)
        let sets := { sets with tableEntries := insertTables cache sets.tableEntries schemas "" }
        { sets with viewEntries := insertViews cache sets.viewEntries schemas "" }
      else sets
    (sets, scanner)
  | RuleId.RuleTableWild | RuleId.RuleColumnRef | RuleId.RuleColumnInternalRef =>
    let r := determineSchemaTableQualifier scanner lx
    let flags := r.1
    let schema := r.2.1
    let table := r.2.2.1
    let scanner := r.2.2.2
    let sets :=
      if flags &&& ShowSchemas ≠ 0 then
        { sets with schemaEntries := insertSchemas cache sets.schemaEntries "" }
      else sets
    let schemas :=
      if schema ≠ "" then strInsert [] schema
      else if context.references ≠ [] then
        context.references.foldl
          (fun acc ref => if ref.schema ≠ "" then strInsert acc ref.schema else acc) []
      else []
    let schemas := if schemas = [] then strInsert [] defaultSchema else schemas
    let sets :=
      if flags &&& ShowTables ≠ 0 then
        let sets := { sets with tableEntries := insertTables cache sets.tableEntries schemas "" }
        if cand.1 == RuleId.RuleColumnRef then
          let sets := { sets with viewEntries := insertViews cache sets.viewEntries schemas "" }
          { sets with
            tableEntries :=
              context.references.foldl
                (fun te ref =>
                  if (schema = "" ∧ ref.schema = "") ∨ schemas.contains ref.schema then
                    csInsert te
                      (AC_TABLE_IMAGE, if ref.alias_ = "" then ref.table else ref.alias_)
                  else te)
                sets.tableEntries }
        else sets
      else sets
    let sets :=
      if flags &&& ShowColumns ≠ 0 then
        showColumnsUpdate cache defaultSchema queryType (cand.1 == RuleId.RuleColumnRef)
          schema table context.references schemas sets
      else sets
    (sets, scanner)
  | RuleId.RuleTriggerRef =>
    let r := determineQualifier scanner lx caretOffset
    let flags := r.1
    let qualifier := r.2.1
    let scanner := r.2.2
    let schemas := strInsert [] defaultSchema
    let sets :=
      if flags &&& ShowFirst ≠ 0 then
        { sets with schemaEntries := insertTables cache sets.schemaEntries schemas "" }
      else sets
    let sets :=
      if flags &&& ShowSecond ≠ 0 then
        { sets with
          triggerEntries :=
            (cache.getMatchingTriggerNames defaultSchema qualifier "").foldl
              (fun s t => csInsert s (AC_TRIGGER_IMAGE, t)) sets.triggerEntries }
      else sets
    (sets, scanner)
  | RuleId.RuleViewRef =>
    let r := determineQualifier scanner lx caretOffset
    let flags := r.1
    let qualifier := r.2.1
    let scanner := r.2.2
    let sets :=
      if flags &&& ShowFirst ≠ 0 then
        { sets with schemaEntries := insertSchemas cache sets.schemaEntries "" }
      else sets
    let sets :=
      if flags &&& ShowSecond ≠ 0 then
        let schemas := strInsert [] (if qualifier = "" then defaultSchema else qualifier)
        { sets with viewEntries := insertViews cache sets.viewEntries schemas "" }
      else sets
    (sets, scanner)
  | RuleId.RuleLogfileGroupRef =>
    let sets :=
      { sets with
        logfileGroupEntries :=
          (cache.getMatchingLogfileGroups "").foldl
            (fun s g => csInsert s (AC_LOGFILE_GROUP_IMAGE, g)) sets.logfileGroupEntries }
    (sets, scanner)
  | RuleId.RuleTablespaceRef =>
    let sets :=
      { sets with
        tablespaceEntries :=
          (cache.getMatchingTablespaces "").foldl
            (fun s t => csInsert s (AC_TABLESPACE_IMAGE, t)) sets.tablespaceEntries }
    (sets, scanner)
  | RuleId.RuleUserVariable =>
    ({ sets with
        userVarEntries := csInsert sets.userVarEntries (AC_USER_VAR_IMAGE, "<user variable>") },
      scanner)
  | RuleId.RuleLabelRef =>
    ({ sets with
        userVarEntries := csInsert sets.userVarEntries (AC_USER_VAR_IMAGE, "<block labels>") },
      scanner)
  | RuleId.RuleSystemVariable =>
    let sets :=
      { sets with
        systemVarEntries :=
          (cache.getMatchingVariables "").foldl
            (fun s v => csInsert s (AC_SYSTEM_VAR_IMAGE, v)) sets.systemVarEntries }
    (sets, scanner)
  | RuleId.RuleCharsetName =>
    let sets :=
      { sets with
        charsetEntries :=
          (cache.getMatchingCharsets "").foldl
            (fun s c => csInsert s (AC_CHARSET_IMAGE, c)) sets.charsetEntries }
    (sets, scanner)
  | RuleId.RuleCollationName =>
    let sets :=
      { sets with
        collationEntries :=
          (cache.getMatchingCollations "").foldl
            (fun s c => csInsert s (AC_COLLATION_IMAGE, c)) sets.collationEntries }
    (sets, scanner)
  | RuleId.RuleEventRef =>
    let r := determineQualifier scanner lx caretOffset
    let flags := r.1
    let qualifier := r.2.1
    let scanner := r.2.2
    let sets :=
      if flags &&& ShowFirst ≠ 0 then
        { sets with schemaEntries := insertSchemas cache sets.schemaEntries "" }
      else sets
    let sets :=
      if flags &&& ShowSecond ≠ 0 then
        let qualifier := if qualifier = "" then defaultSchema else qualifier
        { sets with
          eventEntries :=
            (cache.getMatchingEvents qualifier "").foldl
              (fun s e => csInsert s (AC_EVENT_IMAGE, e)) sets.eventEntries }
      else sets
    (sets, scanner)
  | _ => (sets, scanner)

/-- The set-building phase of `getCodeCompletionList` (source lines
502–969): collect candidates, position the scanner at the caret, run the
token-candidate loop and the rule-candidate loop.  The external parser is
modelled by its observable pieces: the token stream, the caret token
index (`advanceToPosition` on line/column is folded into `caretIndex`),
the vocabulary, the engine's candidates and the lexer's query type. -/
def computeSets (caretIndex : Nat) (caretOffset : Nat) (tokens : List Token)
    (defaultSchema : String) (uppercaseKeywords : Bool)
    (engineResult : CandidatesCollection) (queryType : MySQLQueryType)
    (vocabulary : TokType → String) (functionNames : String) (cache : NamesCache) : Sets :=
  let emptyCtx : AutoCompletionContext :=
    { completionCandidates := { tokens := [], rules := [] },
      referencesStack := [], references := [] }
  let context := collectCandidates emptyCtx engineResult
  let scanner : Scanner := Scanner.push { tokens := tokens, index := caretIndex, stack := [] }
  let sets :=
    context.completionCandidates.tokens.foldl
      (processTokenCandidate vocabulary uppercaseKeywords) emptySets
  let final :=
    context.completionCandidates.rules.foldl
      (processRuleCandidate cache defaultSchema functionNames queryType caretOffset
        mysqlLexer context)
      (sets, scanner)
  final.1

/-- The final emission pass of `getCodeCompletionList` (source lines
971–995): copy the per-kind sets into the flat result, in the source's
fixed order. -/
def emitSets (s : Sets) : List (Nat × String) :=
  s.keywordEntries ++ s.columnEntries ++ s.tableEntries ++ s.viewEntries ++
  s.schemaEntries ++ s.functionEntries ++ s.procedureEntries ++ s.triggerEntries ++
  s.indexEntries ++ s.eventEntries ++ s.userEntries ++ s.engineEntries ++
  s.pluginEntries ++ s.logfileGroupEntries ++ s.tablespaceEntries ++ s.charsetEntries ++
  s.collationEntries ++ s.userVarEntries ++ s.runtimeFunctionEntries ++ s.systemVarEntries

/-- `getCodeCompletionList` (source lines 502–998). -/
def getCodeCompletionList (caretIndex : Nat) (caretOffset : Nat) (tokens : List Token)
    (defaultSchema : String) (uppercaseKeywords : Bool)
    (engineResult : CandidatesCollection) (queryType : MySQLQueryType)
    (vocabulary : TokType → String) (functionNames : String) (cache : NamesCache) :
    List (Nat × String) :=
  emitSets
    (computeSets caretIndex caretOffset tokens defaultSchema uppercaseKeywords engineResult
      queryType vocabulary functionNames cache)

/-- A cache with no stored objects: every query answers the empty list. -/
def emptyCache : NamesCache :=
  { getMatchingSchemaNames := fun _ => [],
    getMatchingTableNames := fun _ _ => [],
    getMatchingViewNames := fun _ _ => [],
    getMatchingColumnNames := fun _ _ _ => [],
    getMatchingProcedureNames := fun _ _ => [],
    getMatchingFunctionNames := fun _ _ => [],
    getMatchingUdfNames := fun _ => [],
    getMatchingTriggerNames := fun _ _ _ => [],
    getMatchingEvents := fun _ _ => [],
    getMatchingEngines := fun _ => [],
    getMatchingLogfileGroups := fun _ => [],
    getMatchingTablespaces := fun _ => [],
    getMatchingVariables := fun _ => [],
    getMatchingCharsets := fun _ => [],
    getMatchingCollations := fun _ => [] }

/-- A test vocabulary mapping the distinguished token types to the
display names the real grammar uses for them. -/
def testVocabulary : TokType → String
  | TokType.NOW_SYMBOL => "NOW_SYMBOL"
  | TokType.NOT_SYMBOL => "NOT_SYMBOL"
  | TokType.NOT2_SYMBOL => "NOT2_SYMBOL"
  | TokType.DOT_SYMBOL => "."
  | _ => "TOKEN"

/-- An unquoted identifier token with the given text. -/
def idTok (a : String) : Token := { ttype := TokType.IDENTIFIER, channel := 0, text := a }

/-- A dot token. -/
def dotTok : Token := { ttype := TokType.DOT_SYMBOL, channel := 0, text := "." }

/-- A default-channel keyword-like token that is neither a dot nor an
identifier (a `SELECT` in the test streams). -/
def kwTok : Token := { ttype := TokType.OTHER 57, channel := 0, text := "SELECT" }

/-- The stream `SELECT` + EOF with the cursor at index `i`. -/
def dstqScan1At (i : Nat) : Scanner :=
  { tokens := [kwTok, eofToken], index := i, stack := [] }

/-- The stream `SELECT a` + EOF with the cursor at index `i`. -/
def dstqScan2At (a : String) (i : Nat) : Scanner :=
  { tokens := [kwTok, idTok a, eofToken], index := i, stack := [] }

/-- The stream `SELECT a .` + EOF with the cursor at index `i`. -/
def dstqScan3At (a : String) (i : Nat) : Scanner :=
  { tokens := [kwTok, idTok a, dotTok, eofToken], index := i, stack := [] }

/-- The stream `SELECT a . b .` + EOF with the cursor at index `i`. -/
def dstqScan4At (a b : String) (i : Nat) : Scanner :=
  { tokens := [kwTok, idTok a, dotTok, idTok b, dotTok, eofToken], index := i, stack := [] }

/-- Caret scenario for `determineSchemaTableQualifier`: nothing
identifier-like left of the caret. -/
def dstqScanNothing : Scanner := dstqScan1At 1

/-- Caret scenario: a single identifier left of the caret, no dot. -/
def dstqScanId (a : String) : Scanner := dstqScan2At a 2

/-- Caret scenario: `id .` left of the caret. -/
def dstqScanIdDot (a : String) : Scanner := dstqScan3At a 3

/-- Caret scenario: `id . id .` left of the caret. -/
def dstqScanIdDotIdDot (a b : String) : Scanner := dstqScan4At a b 5

/-- Scanner positioned on the leading identifier of `a.b`, used to
exercise `determineQualifierFrom`. -/
def dqScanOnId : Scanner :=
  { tokens := [idTok "a", dotTok, idTok "b", eofToken], index := 0, stack := [] }

/-- A sample reference: bare table `t1`. -/
def refT1 : TableReference := { schema := "", table := "t1", alias_ := "" }

/-- Context holding one reference on one stack level, flat list empty. -/
def ctxC4 : AutoCompletionContext :=
  { completionCandidates := { tokens := [], rules := [] },
    referencesStack := [[refT1]], references := [] }

/-- Context with one pre-caret reference on the stack, used to exercise
`collectCandidates` with a column-reference candidate. -/
def ctxC2 : AutoCompletionContext :=
  { completionCandidates := { tokens := [], rules := [] },
    referencesStack := [[refT1]], references := [] }

/-- Engine output containing exactly one column-reference rule candidate. -/
def engineColumnRef : CandidatesCollection :=
  { tokens := [], rules := [(RuleId.RuleColumnRef, [])] }

/-- Engine output for the `SELECT NOW^` scenario: the candidate engine
reports the `NOW_SYMBOL` keyword token with no follow tokens. -/
def engineNow : CandidatesCollection :=
  { tokens := [(TokType.NOW_SYMBOL, [])], rules := [] }

/-- Engine output reporting the secondary NOT token. -/
def engineNot2 : CandidatesCollection :=
  { tokens := [(TokType.NOT2_SYMBOL, [])], rules := [] }

/-- Engine output with a table-reference and a trigger-reference rule
candidate at the same caret. -/
def engineTableAndTrigger : CandidatesCollection :=
  { tokens := [], rules := [(RuleId.RuleTableRef, []), (RuleId.RuleTriggerRef, [])] }

/-- A cache whose every schema holds table `t1` and view `v1` and nothing
else. -/
def cacheT1V1 : NamesCache :=
  { emptyCache with
    getMatchingTableNames := fun _ _ => ["t1"],
    getMatchingViewNames := fun _ _ => ["v1"] }

/-- Case-insensitive equality of `(schema, table, alias)` triples. -/
def ciTripleEq (r1 r2 : TableReference) : Bool :=
  sameString r1.schema r2.schema && sameString r1.table r2.table &&
    sameString r1.alias_ r2.alias_

/-- Whether a reference list contains two case-insensitively equal
`(schema, table, alias)` triples. -/
def hasDupCITriple : List TableReference → Bool
  | [] => false
  | r :: rest => rest.any (ciTripleEq r) || hasDupCITriple rest

/-- Collapse adjacent equal elements to single representatives. -/
def collapseRuns : List Nat → List Nat
  | [] => []
  | a :: rest =>
    match collapseRuns rest with
    | [] => [a]
    | b :: t => if a = b then b :: t else a :: b :: t

/-- Stated from the claim: a result list is grouped by kind when each
kind occupies one contiguous run. -/
def kindsGrouped (l : List (Nat × String)) : Prop :=
  (collapseRuns (l.map Prod.fst)).Nodup

instance : DecidablePred kindsGrouped := fun l =>
  inferInstanceAs (Decidable (collapseRuns (l.map Prod.fst)).Nodup)

/-- Stated from the claim (for comparison with `columnTables`): the typed
qualifier together with the table of **every** reference whose alias
matches it case-insensitively. -/
def claimColumnTables (table : String) (refs : List TableReference) (isColumnRef : Bool) :
    List String :=
  if table ≠ "" then
    table :: (refs.filter fun r => sameString table r.alias_).map (fun r => r.table)
  else if refs ≠ [] ∧ isColumnRef then refs.map (fun r => r.table)
  else []

/-- Two references sharing the alias `x` but naming different tables. -/
def refsSharedAlias : List TableReference :=
  [{ schema := "", table := "t1", alias_ := "x" },
   { schema := "", table := "t2", alias_ := "x" }]

/-- The strict-order relation induced on entries by `CompareAcEntries`:
case-insensitive comparison of the texts alone. -/
def ciR (x y : Nat × String) : Prop := acLt x y = true

theorem charListLt_antisymm : ∀ (s t : List Char), charListLt s t = false →
    charListLt t s = false → s = t
  | [], [], _, _ => rfl
  | [], _ :: _, h1, _ => by simp [charListLt] at h1
  | _ :: _, [], _, h2 => by simp [charListLt] at h2
  | a :: s, b :: t, h1, h2 => by
    by_cases hab : a < b
    · simp [charListLt, hab] at h1
    · by_cases hba : b < a
      · simp [charListLt, hba] at h2
      · have hab2 : a = b := le_antisymm (not_lt.mp hba) (not_lt.mp hab)
        subst hab2
        simp only [charListLt, lt_self_iff_false, ite_false] at h1 h2
        rw [charListLt_antisymm s t h1 h2]

theorem strLt_antisymm (a b : String) (h1 : strLt a b = false) (h2 : strLt b a = false) :
    a = b := by
  cases a with
  | mk da =>
    cases b with
    | mk db => rw [charListLt_antisymm da db h1 h2]

theorem strInsert_mem (l : List String) (e x : String) :
    x ∈ strInsert l e ↔ x = e ∨ x ∈ l := by
  induction l with
  | nil => simp [strInsert]
  | cons a rest ih =>
    simp only [strInsert]
    split
    · simp [List.mem_cons]
    · rename_i h1
      split
      · simp only [List.mem_cons, ih]
        tauto
      · rename_i h2
        have h1f : strLt e a = false := by simpa using h1
        have h2f : strLt a e = false := by simpa using h2
        have hea : e = a := strLt_antisymm e a h1f h2f
        subst hea
        simp only [List.mem_cons]
        tauto

theorem strInsert_ne_nil (l : List String) (e : String) : strInsert l e ≠ [] := by
  cases l with
  | nil => simp [strInsert]
  | cons a rest =>
    simp only [strInsert]
    split
    · simp
    · split <;> simp

theorem foldl_strInsert_mem (refs : List TableReference) (init : List String) (x : String) :
    x ∈ refs.foldl (fun acc r => strInsert acc r.table) init ↔
      x ∈ init ∨ ∃ r ∈ refs, x = r.table := by
  induction refs generalizing init with
  | nil => simp
  | cons r rest ih =>
    simp only [List.foldl_cons, ih, strInsert_mem, List.mem_cons]
    constructor
    · rintro ((h | h) | ⟨q, hq, hxq⟩)
      · exact Or.inr ⟨r, Or.inl rfl, h⟩
      · exact Or.inl h
      · exact Or.inr ⟨q, Or.inr hq, hxq⟩
    · rintro (h | ⟨q, rfl | hq, hxq⟩)
      · exact Or.inl (Or.inr h)
      · exact Or.inl (Or.inl hxq)
      · exact Or.inr ⟨q, hq, hxq⟩

theorem csInsert_head (l : List (Nat × String)) (e : Nat × String) :
    (csInsert l e).head? = some e ∨ (csInsert l e).head? = l.head? := by
  cases l with
  | nil => left; rfl
  | cons a rest =>
    simp only [csInsert]
    split
    · left; rfl
    · split
      · right; rfl
      · right; rfl

theorem tokErase_cons_self (p : TokType × List TokType) (t : List (TokType × List TokType))
    (k : TokType) (hp : p.1 = k) : tokErase (p :: t) k = tokErase t k := by
  simp [tokErase, List.filter_cons, hp]

theorem tokErase_cons_ne (p : TokType × List TokType) (t : List (TokType × List TokType))
    (k : TokType) (hp : ¬p.1 = k) : tokErase (p :: t) k = p :: tokErase t k := by
  simp [tokErase, List.filter_cons, hp]

theorem tokLookup_cons_self (p : TokType × List TokType) (t : List (TokType × List TokType))
    (k : TokType) (hp : p.1 = k) : tokLookup (p :: t) k = some p.2 := by
  simp only [tokLookup]
  rw [@List.find?_cons_of_pos _ (fun q => q.1 == k) p t (by simp [hp])]
  rfl

theorem tokLookup_cons_ne (p : TokType × List TokType) (t : List (TokType × List TokType))
    (k : TokType) (hp : ¬p.1 = k) : tokLookup (p :: t) k = tokLookup t k := by
  simp only [tokLookup]
  rw [List.find?_cons_of_neg _ (by simp [hp])]

theorem tokLookup_erase_self (m : List (TokType × List TokType)) (k : TokType) :
    tokLookup (tokErase m k) k = none := by
  induction m with
  | nil => rfl
  | cons p t ih =>
    by_cases hp : p.1 = k
    · rw [tokErase_cons_self p t k hp]
      exact ih
    · rw [tokErase_cons_ne p t k hp, tokLookup_cons_ne p _ k hp]
      exact ih

theorem tokLookup_erase_ne (m : List (TokType × List TokType)) (k k' : TokType)
    (h : k' ≠ k) : tokLookup (tokErase m k) k' = tokLookup m k' := by
  induction m with
  | nil => rfl
  | cons p t ih =>
    by_cases hp : p.1 = k
    · have hpk : ¬p.1 = k' := by rw [hp]; exact Ne.symm h
      rw [tokErase_cons_self p t k hp, tokLookup_cons_ne p t k' hpk]
      exact ih
    · by_cases hq : p.1 = k'
      · rw [tokErase_cons_ne p t k hp, tokLookup_cons_self p _ k' hq,
          tokLookup_cons_self p t k' hq]
      · rw [tokErase_cons_ne p t k hp, tokLookup_cons_ne p _ k' hq,
          tokLookup_cons_ne p t k' hq]
        exact ih

theorem tokLookup_set_self (m : List (TokType × List TokType)) (k : TokType)
    (v : List TokType) : tokLookup (tokSet m k v) k = some v := by
  induction m with
  | nil => exact tokLookup_cons_self (k, v) [] k rfl
  | cons p t ih =>
    by_cases hp : p.1 = k
    · simp only [tokSet, hp, beq_self_eq_true, if_true, ite_true]
      exact tokLookup_cons_self (k, v) t k rfl
    · have hb : (p.1 == k) = false := by simp [hp]
      simp only [tokSet, hb, Bool.false_eq_true, if_false, ite_false]
      rw [tokLookup_cons_ne p _ k hp]
      exact ih

theorem colRefFold (rules : List (RuleId × List Nat)) (c : AutoCompletionContext) :
    (rules.foldl
        (fun c ruleEntry =>
          if ruleEntry.1 == RuleId.RuleColumnRef then
            takeReferencesSnapshot (collectRemainingTableReferences c)
          else c) c).references =
      c.references ++
        (List.replicate (rules.countP fun r => r.1 == RuleId.RuleColumnRef)
            c.referencesStack.flatten).flatten ∧
    (rules.foldl
        (fun c ruleEntry =>
          if ruleEntry.1 == RuleId.RuleColumnRef then
            takeReferencesSnapshot (collectRemainingTableReferences c)
          else c) c).referencesStack = c.referencesStack := by
  induction rules generalizing c with
  | nil => simp
  | cons r t ih =>
    by_cases hr : r.1 = RuleId.RuleColumnRef
    · have hb : (r.1 == RuleId.RuleColumnRef) = true := by simp [hr]
      have hcount :
          ((r :: t).countP fun q => q.1 == RuleId.RuleColumnRef) =
            (t.countP fun q => q.1 == RuleId.RuleColumnRef) + 1 :=
        List.countP_cons_of_pos _ _ hb
      have step :
          (if r.1 == RuleId.RuleColumnRef then
              takeReferencesSnapshot (collectRemainingTableReferences c)
            else c) = takeReferencesSnapshot c := by
        simp [hb, collectRemainingTableReferences]
      obtain ⟨ih1, ih2⟩ := ih (takeReferencesSnapshot c)
      constructor
      · simp only [List.foldl_cons, step, hcount, List.replicate_succ, List.flatten_cons]
        rw [ih1]
        simp [takeReferencesSnapshot, List.append_assoc]
      · simp only [List.foldl_cons, step]
        rw [ih2]
        rfl
    · have hb : (r.1 == RuleId.RuleColumnRef) = false := by simp [hr]
      have hcount :
          ((r :: t).countP fun q => q.1 == RuleId.RuleColumnRef) =
            t.countP fun q => q.1 == RuleId.RuleColumnRef :=
        List.countP_cons_of_neg _ _ (by simp [hb])
      obtain ⟨ih1, ih2⟩ := ih c
      constructor
      · simp only [List.foldl_cons, hb, Bool.false_eq_true, if_false, hcount]
        exact ih1
      · simp only [List.foldl_cons, hb, Bool.false_eq_true, if_false]
        exact ih2

/-- C10: the result of `determineQualifier` does not depend on its
`offsetInLine` argument — for every scanner state and lexer and any two
offsets, the flags, the qualifier and the resulting scanner state are
identical (the parameter is unused, exactly as in the C++ source). -/
theorem claim_C10 (s : Scanner) (lx : LexerModel) (o1 o2 : Nat) :
    determineQualifier s lx o1 = determineQualifier s lx o2 := rfl

/-- C4: `takeReferencesSnapshot` appends every reference from every stack
level and leaves the stack unchanged — but it performs no deduplication
(the flat list is a vector populated by `push_back`, not the map the
source comment claims).  Run twice on a stack holding one reference, the
flat list contains two case-insensitively equal `(schema, table, alias)`
triples, contradicting the claimed invariant. -/
theorem claim_C4 :
    (∀ ctx : AutoCompletionContext,
        (takeReferencesSnapshot ctx).references =
            ctx.references ++ ctx.referencesStack.flatten ∧
          (takeReferencesSnapshot ctx).referencesStack = ctx.referencesStack) ∧
      (takeReferencesSnapshot (takeReferencesSnapshot ctxC4)).references = [refT1, refT1] ∧
      hasDupCITriple (takeReferencesSnapshot (takeReferencesSnapshot ctxC4)).references =
        true := by
  refine ⟨fun ctx => ⟨rfl, rfl⟩, by decide, by decide⟩

/-- C1: the static `synonyms` table maps `NOW_SYMBOL` to its alternative
spellings, but `getCodeCompletionList` never reads the table: for the
`SELECT NOW^` candidate set (token candidate `NOW_SYMBOL`), the result is
the single keyword entry `now` and contains none of the synonym
spellings. -/
theorem claim_C1 :
    getCodeCompletionList 0 0 [eofToken] "sakila" false engineNow MySQLQueryType.QtUnknown
        testVocabulary "" emptyCache = [(AC_KEYWORD_IMAGE, "now")] ∧
      (TokType.NOW_SYMBOL, ["CURRENT_TIMESTAMP", "LOCALTIME", "LOCALTIMESTAMP"]) ∈ synonyms ∧
      ∀ e ∈ getCodeCompletionList 0 0 [eofToken] "sakila" false engineNow
          MySQLQueryType.QtUnknown testVocabulary "" emptyCache,
        e.2 ≠ "current_timestamp" ∧ e.2 ≠ "localtime" ∧ e.2 ≠ "localtimestamp" := by
  refine ⟨by decide, by decide, by decide⟩

/-- C3 counterexample: `CompareAcEntries` ignores the entry kind, so a
completion set keeps only one of two entries whose texts are
case-insensitively equal even when their kinds differ — refuting
deduplication by the pair `(kind, text)` and the kind tie-break. -/
theorem claim_C3_counterexample :
    csInsert (csInsert [] (0, "a")) (1, "A") = [(0, "a")] ∧
      (1, "A") ∉ csInsert (csInsert [] (0, "a")) (1, "A") := by
  refine ⟨by decide, by decide⟩

/-- C3 (amended): insertion into a completion set preserves strict
case-insensitive ordering of the texts — each set is ordered by text,
case-insensitively, and no two of its entries (of any kinds) have
case-insensitively equal texts. -/
theorem claim_C3 (l : List (Nat × String)) (e : Nat × String)
    (h : List.Chain' ciR l) : List.Chain' ciR (csInsert l e) := by
  induction l with
  | nil => simp [csInsert]
  | cons a rest ih =>
    simp only [csInsert]
    split
    · rename_i hlt
      exact List.Chain'.cons hlt h
    · rename_i hge
      split
      · rename_i hlt2
        have hrest : List.Chain' ciR rest := h.tail
        rw [List.chain'_cons']
        refine ⟨?_, ih hrest⟩
        intro y hy
        rcases csInsert_head rest e with hh | hh
        · rw [hh] at hy
          obtain rfl : e = y := by simpa using hy
          exact hlt2
        · rw [hh] at hy
          exact (List.chain'_cons'.mp h).1 y hy
      · exact h

theorem claim_C3_witness : List.Chain' ciR (csInsert [(0, "a")] (5, "b")) :=
  claim_C3 [(0, "a")] (5, "b") (List.chain'_singleton _)

/-- C2: when the rule candidates contain the column-reference rule,
`collectCandidates` invokes `collectRemainingTableReferences` and then
snapshots the stack — but the scan is an empty stub: the flat reference
list afterwards is exactly the pre-caret stack contents (the pushed root
level included) and nothing from the token stream after the caret is ever
appended; `collectRemainingTableReferences` is the identity. -/
theorem claim_C2 (ctx : AutoCompletionContext) (engineResult : CandidatesCollection)
    (h : (engineResult.rules.countP fun r => r.1 == RuleId.RuleColumnRef) = 1) :
    (collectCandidates ctx engineResult).references =
        ctx.references ++ (ctx.referencesStack ++ [[]]).flatten ∧
      ∀ c, collectRemainingTableReferences c = c := by
  refine ⟨?_, fun c => rfl⟩
  rw [show collectCandidates ctx engineResult =
      engineResult.rules.foldl
        (fun c ruleEntry =>
          if ruleEntry.1 == RuleId.RuleColumnRef then
            takeReferencesSnapshot (collectRemainingTableReferences c)
          else c)
        { completionCandidates :=
            { tokens := postProcessNot2 engineResult.tokens, rules := engineResult.rules },
          referencesStack := ctx.referencesStack ++ [[]],
          references := ctx.references } from rfl]
  rw [(colRefFold _ _).1]
  simp only [h, List.replicate_succ, List.replicate_zero, List.flatten_cons,
    List.flatten_nil, List.append_nil]

theorem claim_C2_witness :
    (collectCandidates ctxC2 engineColumnRef).references =
      ctxC2.references ++ (ctxC2.referencesStack ++ [[]]).flatten :=
  (claim_C2 ctxC2 engineColumnRef (by decide)).1

/-- C9: after post-processing, the token-candidate map never contains the
secondary NOT2 token; when the engine reported NOT2, its follow list is
carried under the primary NOT token; and for the candidate set reporting
NOT2, the returned completion list contains the keyword `not` and no
`not2` entry. -/
theorem claim_C9 (m : List (TokType × List TokType)) (f : List TokType)
    (h : tokLookup m TokType.NOT2_SYMBOL = some f) :
    (∀ m2, tokLookup (postProcessNot2 m2) TokType.NOT2_SYMBOL = none) ∧
      tokLookup (postProcessNot2 m) TokType.NOT_SYMBOL = some f ∧
      getCodeCompletionList 0 0 [eofToken] "sakila" false engineNot2
          MySQLQueryType.QtUnknown testVocabulary "" emptyCache =
        [(AC_KEYWORD_IMAGE, "not")] ∧
      ∀ e ∈ getCodeCompletionList 0 0 [eofToken] "sakila" false engineNot2
          MySQLQueryType.QtUnknown testVocabulary "" emptyCache, e.2 ≠ "not2" := by
  refine ⟨?_, ?_, by decide, by decide⟩
  · intro m2
    cases hl : tokLookup m2 TokType.NOT2_SYMBOL with
    | none => simp [postProcessNot2, hl]
    | some f2 =>
      simp only [postProcessNot2, hl]
      exact tokLookup_erase_self _ _
  · simp only [postProcessNot2, h]
    rw [tokLookup_erase_ne _ _ _ (by decide)]
    exact tokLookup_set_self m TokType.NOT_SYMBOL f

theorem claim_C9_witness :
    tokLookup (postProcessNot2 [(TokType.NOT2_SYMBOL, [])]) TokType.NOT_SYMBOL = some [] :=
  (claim_C9 [(TokType.NOT2_SYMBOL, [])] [] rfl).2.1

/-- C5 (amended): the result of `getCodeCompletionList` is the
concatenation of the per-object entry sets in exactly the fixed source
order — keywords, columns, tables, views, schemas, functions, procedures,
triggers, indexes, events, users, engines, plugins, logfile groups,
tablespaces, charsets, collations, user variables, runtime functions,
system variables.  (The sets are per-object-class, not always per-kind:
the `TriggerRef` first-part branch inserts TABLE-kind entries into the
schemas set, so grouping by kind may fail — see the counterexample.) -/
theorem claim_C5 (caretIndex caretOffset : Nat) (tokens : List Token)
    (defaultSchema : String) (uppercaseKeywords : Bool)
    (engineResult : CandidatesCollection) (queryType : MySQLQueryType)
    (vocabulary : TokType → String) (functionNames : String) (cache : NamesCache) :
    getCodeCompletionList caretIndex caretOffset tokens defaultSchema uppercaseKeywords
        engineResult queryType vocabulary functionNames cache =
      (fun s : Sets =>
          s.keywordEntries ++ s.columnEntries ++ s.tableEntries ++ s.viewEntries ++
          s.schemaEntries ++ s.functionEntries ++ s.procedureEntries ++ s.triggerEntries ++
          s.indexEntries ++ s.eventEntries ++ s.userEntries ++ s.engineEntries ++
          s.pluginEntries ++ s.logfileGroupEntries ++ s.tablespaceEntries ++
          s.charsetEntries ++ s.collationEntries ++ s.userVarEntries ++
          s.runtimeFunctionEntries ++ s.systemVarEntries)
        (computeSets caretIndex caretOffset tokens defaultSchema uppercaseKeywords
          engineResult queryType vocabulary functionNames cache) := rfl

/-- C5 counterexample: with a table-reference and a trigger-reference
rule candidate at the same caret, the trigger branch puts TABLE-kind
entries into the schemas set; the emitted list interleaves kinds
(TABLE, VIEW, TABLE), so the entries are not grouped by kind. -/
theorem claim_C5_counterexample :
    getCodeCompletionList 0 0 [eofToken] "sakila" false engineTableAndTrigger
        MySQLQueryType.QtUnknown testVocabulary "" cacheT1V1 =
      [(AC_TABLE_IMAGE, "t1"), (AC_VIEW_IMAGE, "v1"), (AC_TABLE_IMAGE, "t1")] ∧
      ¬ kindsGrouped (getCodeCompletionList 0 0 [eofToken] "sakila" false
          engineTableAndTrigger MySQLQueryType.QtUnknown testVocabulary "" cacheT1V1) := by
  refine ⟨by decide, by decide⟩

/-- C6: `determineSchemaTableQualifier` implements the emission table —
with nothing or a single identifier left of the caret it returns
`ShowSchemas|ShowTables|ShowColumns` with empty schema and table; with
`id .` it returns `ShowTables|ShowColumns` with schema and table both the
identifier's unquoted text; with `id . id .` it returns `ShowColumns`
with schema the first and table the second identifier's unquoted text. -/
theorem claim_C6 (a b : String) :
    ((determineSchemaTableQualifier dstqScanNothing mysqlLexer).1 =
        (ShowSchemas ||| ShowTables ||| ShowColumns) ∧
      (determineSchemaTableQualifier dstqScanNothing mysqlLexer).2.1 = "" ∧
      (determineSchemaTableQualifier dstqScanNothing mysqlLexer).2.2.1 = "") ∧
    ((determineSchemaTableQualifier (dstqScanId a) mysqlLexer).1 =
        (ShowSchemas ||| ShowTables ||| ShowColumns) ∧
      (determineSchemaTableQualifier (dstqScanId a) mysqlLexer).2.1 = "" ∧
      (determineSchemaTableQualifier (dstqScanId a) mysqlLexer).2.2.1 = "") ∧
    ((determineSchemaTableQualifier (dstqScanIdDot a) mysqlLexer).1 =
        (ShowTables ||| ShowColumns) ∧
      (determineSchemaTableQualifier (dstqScanIdDot a) mysqlLexer).2.1 = unquote a ∧
      (determineSchemaTableQualifier (dstqScanIdDot a) mysqlLexer).2.2.1 = unquote a) ∧
    ((determineSchemaTableQualifier (dstqScanIdDotIdDot a b) mysqlLexer).1 = ShowColumns ∧
      (determineSchemaTableQualifier (dstqScanIdDotIdDot a b) mysqlLexer).2.1 = unquote a ∧
      (determineSchemaTableQualifier (dstqScanIdDotIdDot a b) mysqlLexer).2.2.1 =
        unquote b) := by
  have idID : mysqlLexer.isIdentifier TokType.IDENTIFIER = true := rfl
  have idOther : mysqlLexer.isIdentifier (TokType.OTHER 57) = false := rfl
  have beqOther : ((TokType.OTHER 57) == TokType.DOT_SYMBOL) = false := rfl
  have beqIdDot : (TokType.IDENTIFIER == TokType.DOT_SYMBOL) = false := rfl
  refine ⟨?_, ?_, ?_, ?_⟩
  · have p10 : Scanner.previous (dstqScan1At 1) true = dstqScan1At 0 := rfl
    have ch1 : Scanner.tokenChannel (dstqScan1At 1) = 0 := rfl
    have is1 : Scanner.is (dstqScan1At 1) TokType.DOT_SYMBOL = false := rfl
    have is0 : Scanner.is (dstqScan1At 0) TokType.DOT_SYMBOL = false := rfl
    have id1 : mysqlLexer.isIdentifier (Scanner.tokenType (dstqScan1At 1)) = false := rfl
    have id0 : mysqlLexer.isIdentifier (Scanner.tokenType (dstqScan1At 0)) = false := rfl
    have ti1 : Scanner.tokenIndex (dstqScan1At 1) = 1 := rfl
    refine ⟨?_, ?_, ?_⟩ <;>
      simp [determineSchemaTableQualifier, dstqReposition, dstqScanNothing,
        ch1, is1, is0, id1, id0, ti1, p10]
  · have p21 : Scanner.previous (dstqScan2At a 2) true = dstqScan2At a 1 := rfl
    have n12 : Scanner.next (dstqScan2At a 1) true = dstqScan2At a 2 := rfl
    have ch2 : Scanner.tokenChannel (dstqScan2At a 2) = 0 := rfl
    have is2 : Scanner.is (dstqScan2At a 2) TokType.DOT_SYMBOL = false := rfl
    have is1 : Scanner.is (dstqScan2At a 1) TokType.DOT_SYMBOL = false := rfl
    have id2 : mysqlLexer.isIdentifier (Scanner.tokenType (dstqScan2At a 2)) = false := rfl
    have id1 : mysqlLexer.isIdentifier (Scanner.tokenType (dstqScan2At a 1)) = true := rfl
    have lb1 : Scanner.lookBack (dstqScan2At a 1) = TokType.OTHER 57 := rfl
    have ti2 : Scanner.tokenIndex (dstqScan2At a 2) = 2 := rfl
    refine ⟨?_, ?_, ?_⟩ <;>
      simp [determineSchemaTableQualifier, dstqReposition, dstqScanId,
        ch2, is2, is1, id2, id1, lb1, ti2, p21, n12, idOther, beqOther]
  · have p32 : Scanner.previous (dstqScan3At a 3) true = dstqScan3At a 2 := rfl
    have p21 : Scanner.previous (dstqScan3At a 2) true = dstqScan3At a 1 := rfl
    have n12 : Scanner.next (dstqScan3At a 1) true = dstqScan3At a 2 := rfl
    have n23 : Scanner.next (dstqScan3At a 2) true = dstqScan3At a 3 := rfl
    have ch3 : Scanner.tokenChannel (dstqScan3At a 3) = 0 := rfl
    have is3 : Scanner.is (dstqScan3At a 3) TokType.DOT_SYMBOL = false := rfl
    have is2 : Scanner.is (dstqScan3At a 2) TokType.DOT_SYMBOL = true := rfl
    have is1 : Scanner.is (dstqScan3At a 1) TokType.DOT_SYMBOL = false := rfl
    have id3 : mysqlLexer.isIdentifier (Scanner.tokenType (dstqScan3At a 3)) = false := rfl
    have id2 : mysqlLexer.isIdentifier (Scanner.tokenType (dstqScan3At a 2)) = false := rfl
    have id1 : mysqlLexer.isIdentifier (Scanner.tokenType (dstqScan3At a 1)) = true := rfl
    have lb2 : Scanner.lookBack (dstqScan3At a 2) = TokType.IDENTIFIER := rfl
    have lb1 : Scanner.lookBack (dstqScan3At a 1) = TokType.OTHER 57 := rfl
    have ti3 : Scanner.tokenIndex (dstqScan3At a 3) = 3 := rfl
    have ti2 : Scanner.tokenIndex (dstqScan3At a 2) = 2 := rfl
    have tx1 : Scanner.tokenText (dstqScan3At a 1) = a := rfl
    refine ⟨?_, ?_, ?_⟩ <;>
      simp [determineSchemaTableQualifier, dstqReposition, dstqScanIdDot,
        ch3, is3, is2, is1, id3, id2, id1, lb2, lb1, ti3, ti2, tx1, p32, p21, n12, n23,
        idID, idOther, beqOther, beqIdDot]
  · have p54 : Scanner.previous (dstqScan4At a b 5) true = dstqScan4At a b 4 := rfl
    have p43 : Scanner.previous (dstqScan4At a b 4) true = dstqScan4At a b 3 := rfl
    have p32 : Scanner.previous (dstqScan4At a b 3) true = dstqScan4At a b 2 := rfl
    have p21 : Scanner.previous (dstqScan4At a b 2) true = dstqScan4At a b 1 := rfl
    have n12 : Scanner.next (dstqScan4At a b 1) true = dstqScan4At a b 2 := rfl
    have n23 : Scanner.next (dstqScan4At a b 2) true = dstqScan4At a b 3 := rfl
    have n34 : Scanner.next (dstqScan4At a b 3) true = dstqScan4At a b 4 := rfl
    have ch5 : Scanner.tokenChannel (dstqScan4At a b 5) = 0 := rfl
    have is5 : Scanner.is (dstqScan4At a b 5) TokType.DOT_SYMBOL = false := rfl
    have is4 : Scanner.is (dstqScan4At a b 4) TokType.DOT_SYMBOL = true := rfl
    have is2 : Scanner.is (dstqScan4At a b 2) TokType.DOT_SYMBOL = true := rfl
    have id5 : mysqlLexer.isIdentifier (Scanner.tokenType (dstqScan4At a b 5)) = false := rfl
    have id4 : mysqlLexer.isIdentifier (Scanner.tokenType (dstqScan4At a b 4)) = false := rfl
    have id3 : mysqlLexer.isIdentifier (Scanner.tokenType (dstqScan4At a b 3)) = true := rfl
    have id1 : mysqlLexer.isIdentifier (Scanner.tokenType (dstqScan4At a b 1)) = true := rfl
    have lb4 : Scanner.lookBack (dstqScan4At a b 4) = TokType.IDENTIFIER := rfl
    have lb3 : Scanner.lookBack (dstqScan4At a b 3) = TokType.DOT_SYMBOL := rfl
    have lb2 : Scanner.lookBack (dstqScan4At a b 2) = TokType.IDENTIFIER := rfl
    have ti5 : Scanner.tokenIndex (dstqScan4At a b 5) = 5 := rfl
    have ti2 : Scanner.tokenIndex (dstqScan4At a b 2) = 2 := rfl
    have ti4 : Scanner.tokenIndex (dstqScan4At a b 4) = 4 := rfl
    have tx1 : Scanner.tokenText (dstqScan4At a b 1) = a := rfl
    have tx3 : Scanner.tokenText (dstqScan4At a b 3) = b := rfl
    refine ⟨?_, ?_, ?_⟩ <;>
      simp [determineSchemaTableQualifier, dstqReposition, dstqScanIdDotIdDot,
        ch5, is5, is4, is2, id5, id4, id3, id1, lb4, lb3, lb2, ti5, ti2, ti4, tx1, tx3,
        p54, p43, p32, p21, n12, n23, n34, idID, idOther, beqOther, beqIdDot]

/-- C7: in `determineQualifier`, once the cursor sits on a leading
identifier, its unquoted text is read and the cursor advanced; if the
token there is not a dot, or the cursor has reached or passed the saved
caret index, the emission is `ShowFirst|ShowSecond` with an empty
qualifier, and otherwise `ShowSecond` with the identifier's unquoted text
as the qualifier. -/
theorem claim_C7 (s : Scanner) (lx : LexerModel) (position : Nat)
    (h : lx.isIdentifier s.tokenType = true) :
    ((s.next true).is TokType.DOT_SYMBOL = false ∨ position ≤ (s.next true).tokenIndex →
        determineQualifierFrom s lx position = (ShowFirst ||| ShowSecond, "", s.next true)) ∧
      ((s.next true).is TokType.DOT_SYMBOL = true ∧ (s.next true).tokenIndex < position →
        determineQualifierFrom s lx position =
          (ShowSecond, unquote s.tokenText, s.next true)) := by
  constructor
  · intro hc
    simp only [determineQualifierFrom, h, if_true, ite_true]
    rw [if_pos hc]
  · rintro ⟨h1, h2⟩
    simp only [determineQualifierFrom, h, if_true, ite_true]
    have hnc : ¬((s.next true).is TokType.DOT_SYMBOL = false ∨
        position ≤ (s.next true).tokenIndex) := by
      rintro (hf | hle)
      · rw [h1] at hf
        cases hf
      · exact absurd hle (Nat.not_le.mpr h2)
    rw [if_neg hnc]

theorem claim_C7_witness :
    determineQualifierFrom dqScanOnId mysqlLexer 3 =
      (ShowSecond, unquote dqScanOnId.tokenText, dqScanOnId.next true) :=
  (claim_C7 dqScanOnId mysqlLexer 3 rfl).2 ⟨rfl, by decide⟩

/-- C8 counterexample: with two collected references sharing the alias
`x`, the claimed tables set contains both their tables, but the code's
alias scan breaks after the first match, so `t2` is claimed yet absent. -/
theorem claim_C8_counterexample :
    "t2" ∈ claimColumnTables "x" refsSharedAlias true ∧
      "t2" ∉ columnTables "x" refsSharedAlias true := by
  refine ⟨by decide, by decide⟩

/-- C8 (amended): in the ShowColumns part of the column-reference branch,
the tables set is `{table}` together with the table of the **first**
collected reference whose alias case-insensitively equals the typed
qualifier, when the qualifier is non-empty; otherwise the tables of all
collected references, when references exist and the rule is a genuine
column reference; otherwise empty — and when the set is empty no column
entries are inserted at all. -/
theorem claim_C8 (table : String) (refs : List TableReference) (isColumnRef : Bool) :
    (table ≠ "" → ∀ x, x ∈ columnTables table refs isColumnRef ↔
        x = table ∨ ∃ r, refs.find? (fun q => sameString table q.alias_) = some r ∧
          x = r.table) ∧
      (table = "" → refs ≠ [] → isColumnRef = true → ∀ x,
        x ∈ columnTables table refs isColumnRef ↔ ∃ r ∈ refs, x = r.table) ∧
      (table = "" → refs = [] ∨ isColumnRef = false →
        columnTables table refs isColumnRef = []) ∧
      (columnTables table refs isColumnRef = [] →
        ∀ cache defaultSchema queryType schema schemas sets,
          showColumnsUpdate cache defaultSchema queryType isColumnRef schema table refs
            schemas sets = sets) := by
  refine ⟨?_, ?_, ?_, ?_⟩
  · intro ht x
    cases hf : refs.find? (fun q => sameString table q.alias_) with
    | none => simp [columnTables, ht, hf, strInsert_mem]
    | some r =>
      simp only [columnTables, ht, ne_eq, not_false_iff, if_true, ite_true, hf,
        strInsert_mem, List.not_mem_nil, or_false, Option.some.injEq]
      constructor
      · rintro (hx | hx)
        · exact Or.inr ⟨r, rfl, hx⟩
        · exact Or.inl hx
      · rintro (hx | ⟨r2, hr2, hx⟩)
        · exact Or.inr hx
        · exact Or.inl (hr2 ▸ hx)
  · intro ht hne hb x
    subst ht
    simp only [columnTables, ne_eq, not_true_eq_false, if_false, ite_false, hne, hb,
      not_false_iff, and_true, if_true, ite_true, foldl_strInsert_mem, List.not_mem_nil,
      false_or]
  · intro ht hor
    subst ht
    rcases hor with hr | hb
    · subst hr
      simp [columnTables]
    · subst hb
      simp [columnTables]
  · intro hemp cache ds qt schema schemas sets
    have ht : table = "" := by
      by_contra hne
      unfold columnTables at hemp
      rw [if_pos hne] at hemp
      cases hfind : refs.find? (fun q => sameString table q.alias_) with
      | none =>
        rw [hfind] at hemp
        exact strInsert_ne_nil _ _ hemp
      | some r =>
        rw [hfind] at hemp
        exact strInsert_ne_nil _ _ hemp
    subst ht
    have h1 : sameString "" "old" = false := by decide
    have h2 : sameString "" "new" = false := by decide
    simp [showColumnsUpdate, hemp, h1, h2]

theorem claim_C8_witness :
    "t1" ∈ columnTables "x" refsSharedAlias true ↔
      "t1" = "x" ∨ ∃ r, refsSharedAlias.find? (fun q => sameString "x" q.alias_) = some r ∧
        "t1" = r.table :=
  (claim_C8 "x" refsSharedAlias true).1 (by decide) "t1"
